import Mathlib

set_option maxRecDepth 8192

/-!
Verification of the VPN/RDP automation orchestrator against its
natural-language specification.

The development shallowly embeds the Python source:

* `src/automation_engine/engine.py` — the automation step executor
  (`AutomationEngine`).  Wall-clock polling loops are embedded as
  fuel-indexed recursion: the fuel counts the number of probes the
  timeout budget admits (`timeout / interval`), and the screen/backend is
  an oracle `probe : String → Nat → ProbeOutcome` giving the outcome of
  the i-th `locateOnScreen` call for a given image path.  Code that may
  raise is embedded in `Except String`.
* `src/vcal/drivers/forticlient_driver.py`, `globalprotect_driver.py`,
  `base_vpn_driver.py` — concrete drivers over an explicit driver state.
* `src/vcal/vpn_manager.py` — the driver registry, the active-connection
  table and the profile store.  The on-disk profile directory is
  embedded as an association list keyed by profile name, with Python
  `dict`-style insert/remove helpers.
* `src/core/connection_manager.py` — the connection orchestrator.  Its
  `try/except` recovery boundary is embedded by splitting the method
  into a body returning `Except (exc × state)` (the state component is
  the heap state at the moment the exception is raised) and a total
  wrapper implementing the `except` clause.

Python truthiness of `Optional[str]` values (`if self.current_active_profile:`)
is embedded faithfully: `None` and the empty string are both falsy.
-/

/-- Python `str.lower()`, character by character (the type keys and
driver-type identifiers lowercased by the source are ASCII). -/
def pyLower (s : String) : String := ⟨s.data.map Char.toLower⟩

/-- Python truthiness of an `Optional[str]`: `None` and `""` are falsy. -/
def pyTruthyStr : Option String → Bool
  | none => false
  | some s => s != ""

/-- Python truthiness of an `Optional[dict]`: `None` and the empty dict are falsy. -/
def pyTruthyDict {α : Type} : Option (List (String × α)) → Bool
  | none => false
  | some d => !d.isEmpty

/-- Python `dict` assignment `d[k] = v`: replace the entry in place if the
key is present, otherwise append. -/
def dictInsert {α : Type} (k : String) (v : α) : List (String × α) → List (String × α)
  | [] => [(k, v)]
  | (k1, v1) :: rest => if k1 == k then (k, v) :: rest else (k1, v1) :: dictInsert k v rest

/-- Python `del d[k]`: remove the entry with the given key (keys are unique). -/
def dictRemove {α : Type} (k : String) : List (String × α) → List (String × α)
  | [] => []
  | (k1, v1) :: rest => if k1 == k then rest else (k1, v1) :: dictRemove k rest

/-! ## Automation engine (`src/automation_engine/engine.py`) -/

/-- A bounding box returned by `pyautogui.locateOnScreen` (left, top, width, height). -/
abbrev Loc := Nat × Nat × Nat × Nat

/-- Outcome of one `pyautogui.locateOnScreen` probe inside
`AutomationEngine.find_image_on_screen`:
the probe finds the image, returns `None`, raises
`pyautogui.ImageNotFoundException`, or raises some other exception
(a genuine I/O/backend error). -/
inductive ProbeOutcome where
  | found : Loc → ProbeOutcome
  | notFoundNone : ProbeOutcome
  | notFoundExc : ProbeOutcome
  | err : String → ProbeOutcome
deriving DecidableEq

namespace AutomationEngine

/-- The `while time.time() - start_time < to` polling loop of
`AutomationEngine.find_image_on_screen`, with the remaining number of
probes as fuel and the index of the next probe threaded through.
Returns the result together with the index after the last probe consumed,
mirroring the passage of wall-clock time.  Per the source: a found
location returns immediately; a `None` result or an
`ImageNotFoundException` sleeps and retries; any other exception is
printed and the function returns `None` at once. -/
def findImageFrom (probe : String → Nat → ProbeOutcome) (image_path : String) :
    Nat → Nat → Option Loc × Nat
  | 0, i => (none, i)
  | Nat.succ fuel, i =>
    match probe image_path i with
    | .found l => (some l, i + 1)
    | .notFoundNone => findImageFrom probe image_path fuel (i + 1)
    | .notFoundExc => findImageFrom probe image_path fuel (i + 1)
    | .err _ => (none, i + 1)

/-- `AutomationEngine.find_image_on_screen`.  `available` is
`self.pyautogui_available`; `budget` is the number of probes the
`timeout`/`interval` pair admits.  The Python method catches every
exception inside the loop, so the embedding never produces `.error`;
the `Except` return type records that the contract of the method is to
return rather than raise. -/
def find_image_on_screen (available : Bool) (probe : String → Nat → ProbeOutcome)
    (image_path : String) (budget : Nat) : Except String (Option Loc) :=
  if !available then .ok none
  else .ok (findImageFrom probe image_path budget 0).1

/-- The `while` loop of `AutomationEngine.wait_for_image_to_disappear`:
each iteration runs `find_image_on_screen` with `timeout=1`
(`innerBudget` probes) from the current probe index; a not-found result
returns `true`, otherwise the loop sleeps and retries until the outer
budget is exhausted, returning `false`. -/
def waitDisappearLoop (probe : String → Nat → ProbeOutcome) (image_path : String)
    (innerBudget : Nat) : Nat → Nat → Bool
  | 0, _ => false
  | Nat.succ fuel, i =>
    match findImageFrom probe image_path innerBudget i with
    | (none, _) => true
    | (some _, j) => waitDisappearLoop probe image_path innerBudget fuel j

/-- `AutomationEngine.wait_for_image_to_disappear`.  When the backend is
unavailable the source returns `True` immediately ("If no pyautogui,
assume it disappeared"). -/
def wait_for_image_to_disappear (available : Bool) (probe : String → Nat → ProbeOutcome)
    (image_path : String) (outerBudget innerBudget : Nat) : Except String Bool :=
  if !available then .ok true
  else .ok (waitDisappearLoop probe image_path innerBudget outerBudget 0)

/-- `AutomationEngine.get_screen_resolution`: `(0, 0)` when the backend is
unavailable, otherwise the size reported by the backend. -/
def get_screen_resolution (available : Bool) (size : Nat × Nat) : Nat × Nat :=
  if !available then (0, 0) else size

/-- A probe outcome that the `find_image_on_screen` loop treats as an
ordinary failed probe (retry after sleeping): `locateOnScreen` returning
`None`, or raising `ImageNotFoundException`. -/
def isBenignFail : ProbeOutcome → Bool
  | .notFoundNone => true
  | .notFoundExc => true
  | _ => false

end AutomationEngine

/-! ## Data model (`src/vcal/vpn_manager.py`, `src/vcal/base_vpn_driver.py`) -/

/-- The `remote_access` entry of the config of a profile:
`{"type": ..., "details": ...}`.  `none` fields model absent keys (and,
equivalently for `dict.get`, keys stored as `None`); `details` is an
opaque dictionary. -/
structure RemoteAccessCfg where
  raType : Option String
  details : Option (List (String × String))
deriving DecidableEq

/-- The `config` dictionary of a profile, as consumed by the drivers and the
orchestrator: the conventional `automation_sequence` list (steps kept
opaque as strings) and the optional `remote_access` descriptor.  A `none`
field models an absent key. -/
structure VpnConfig where
  automation_sequence : Option (List String)
  remote_access : Option RemoteAccessCfg
deriving DecidableEq

/-- One persisted profile record, as written by `VPNManager.save_profile`:
`{"name": ..., "type": ..., "config": ...}`. -/
structure ProfileRecord where
  name : String
  type : String
  config : VpnConfig
deriving DecidableEq

/-- The mutable state of a `BaseVPNDriver` instance
(`profile_name`, `vpn_config`, `is_connected`), plus whether the
`AutomationEngine` of the driver was constructed (`self.automation_engine`
is not `None`). -/
structure DriverState where
  profile_name : String
  vpn_config : VpnConfig
  is_connected : Bool
  automation_engine : Bool

/-- A registered driver class: the `{connect, disconnect, get_status}`
capability set of `BaseVPNDriver`.  `connect`/`disconnect` may raise
(`.error`), returning otherwise the `(success, message)` pair and the
mutated driver state. -/
structure DriverClass where
  connectFn : DriverState → Except String (Bool × String × DriverState)
  disconnectFn : DriverState → Except String (Bool × String × DriverState)
  statusFn : DriverState → String

/-! ## Concrete drivers (`forticlient_driver.py`, `globalprotect_driver.py`) -/

/-- `FortiClientDriver.connect`.  The f-strings in the source contain
literal tab characters around the quoted profile name; they are kept. -/
def fortiClientConnect (d : DriverState) : Bool × String × DriverState :=
  if !d.automation_engine then
    (false, "AutomationEngine not available for FortiClient profile \t\x27" ++ d.profile_name
      ++ "\t\x27. Cannot connect.", d)
  else
    let automation_sequence := d.vpn_config.automation_sequence.getD []
    if automation_sequence.isEmpty then
      let msg := "Warning: No automation sequence defined for FortiClient profile "
        ++ d.profile_name ++ ". Simulating connect."
      (true, msg ++ " Simulated connection successful.", { d with is_connected := true })
    else
      (true, "FortiClient profile \t\x27" ++ d.profile_name
        ++ "\t\x27 connected (simulated via automation sequence).", { d with is_connected := true })

/-- `FortiClientDriver.disconnect`. -/
def fortiClientDisconnect (d : DriverState) : Bool × String × DriverState :=
  if !d.is_connected then
    (true, "FortiClient profile \t\x27" ++ d.profile_name ++ "\t\x27 is already disconnected.", d)
  else if !d.automation_engine then
    (false, "AutomationEngine not available for FortiClient profile \t\x27" ++ d.profile_name
      ++ "\t\x27. Cannot disconnect.", { d with is_connected := false })
  else
    (true, "FortiClient profile \t\x27" ++ d.profile_name ++ "\t\x27 disconnected (simulated).",
      { d with is_connected := false })

/-- `GlobalProtectDriver.connect`. -/
def globalProtectConnect (d : DriverState) : Bool × String × DriverState :=
  if !d.automation_engine then
    (false, "AutomationEngine not available for GlobalProtect profile \x27" ++ d.profile_name
      ++ "\x27. Cannot connect.", d)
  else
    let automation_sequence := d.vpn_config.automation_sequence.getD []
    if automation_sequence.isEmpty then
      let msg := "Warning: No automation sequence defined for GlobalProtect profile "
        ++ d.profile_name ++ ". Simulating connect."
      (true, msg ++ " Simulated connection successful.", { d with is_connected := true })
    else
      (true, "GlobalProtect profile \x27" ++ d.profile_name
        ++ "\x27 connected (simulated via automation sequence).", { d with is_connected := true })

/-- `GlobalProtectDriver.disconnect`. -/
def globalProtectDisconnect (d : DriverState) : Bool × String × DriverState :=
  if !d.is_connected then
    (true, "GlobalProtect profile \x27" ++ d.profile_name ++ "\x27 is already disconnected.", d)
  else if !d.automation_engine then
    (false, "AutomationEngine not available for GlobalProtect profile \x27" ++ d.profile_name
      ++ "\x27. Cannot disconnect.", { d with is_connected := false })
  else
    (true, "GlobalProtect profile \x27" ++ d.profile_name ++ "\x27 disconnected (simulated).",
      { d with is_connected := false })

/-- `get_status` shared by both concrete drivers. -/
def concreteDriverStatus (d : DriverState) : String :=
  if d.is_connected then "Connected" else "Disconnected"

/-- The `FortiClientDriver` class.  Its methods never raise. -/
def FortiClientDriver : DriverClass where
  connectFn := fun d => .ok (fortiClientConnect d)
  disconnectFn := fun d => .ok (fortiClientDisconnect d)
  statusFn := concreteDriverStatus

/-- The `GlobalProtectDriver` class.  Its methods never raise. -/
def GlobalProtectDriver : DriverClass where
  connectFn := fun d => .ok (globalProtectConnect d)
  disconnectFn := fun d => .ok (globalProtectDisconnect d)
  statusFn := concreteDriverStatus

/-! ## VPN manager (`src/vcal/vpn_manager.py`) -/

/-- The state of a `VPNManager`: the driver registry
(`registered_drivers`), the active-connection table
(`active_connections`, profile name → driver instance), and the on-disk
profile directory (`store`, file `<name>.json` → its parsed record). -/
structure VPNManager where
  registered_drivers : List (String × DriverClass)
  active_connections : List (String × (DriverClass × DriverState))
  store : List (String × ProfileRecord)

/-- `VPNManager.create_connection`: look the lowered `vpn_type` up in the
registry and instantiate the driver class on the profile.  The concrete
driver constructors assign `self.automation_engine = AutomationEngine()`,
whose own constructor handles headless failure internally and does not
raise, so the fresh instance always carries an engine. -/
def VPNManager.create_connection (m : VPNManager) (profile_name vpn_type : String)
    (vpn_config : VpnConfig) : Option (DriverClass × DriverState) :=
  match List.lookup (pyLower vpn_type) m.registered_drivers with
  | none => none
  | some cls =>
    some (cls, { profile_name := profile_name, vpn_config := vpn_config,
                 is_connected := false, automation_engine := true })

/-- `VPNManager.connect`: create the driver, call its `connect`, and on
success record the instance in the active-connection table.  Its
own `try/except` converts a raising driver into a `(False, message)`
result, leaving the table untouched. -/
def VPNManager.connect (m : VPNManager) (profile_name vpn_type : String)
    (vpn_config : VpnConfig) : (Bool × String) × VPNManager :=
  match m.create_connection profile_name vpn_type vpn_config with
  | none => ((false, "Failed to create driver for VPN type \t\x27" ++ vpn_type ++ "\t\x27."), m)
  | some (cls, d0) =>
    match cls.connectFn d0 with
    | .error e => ((false, "Unexpected error in VPNManager during connect: " ++ e), m)
    | .ok (success, message, d1) =>
      if success then
        ((success, message),
         { m with active_connections := dictInsert profile_name (cls, d1) m.active_connections })
      else
        ((success, message), m)

/-- `VPNManager.disconnect`: a profile that is not in the table counts as
already disconnected; otherwise call `disconnect` on the instance and on
success delete the entry (on failure the mutated instance stays in the
table; a raising driver is converted to `(False, message)` by its
own `try/except`). -/
def VPNManager.disconnect (m : VPNManager) (profile_name : String) :
    (Bool × String) × VPNManager :=
  match List.lookup profile_name m.active_connections with
  | none => ((true, "Profile was not actively connected."), m)
  | some (cls, d) =>
    match cls.disconnectFn d with
    | .error e => ((false, "Unexpected error in VPNManager during disconnect: " ++ e), m)
    | .ok (success, message, d1) =>
      if success then
        ((success, message),
         { m with active_connections := dictRemove profile_name m.active_connections })
      else
        ((success, message),
         { m with active_connections := dictInsert profile_name (cls, d1) m.active_connections })

/-- `VPNManager.get_connection_status`. -/
def VPNManager.get_connection_status (m : VPNManager) (profile_name : String) : String :=
  match List.lookup profile_name m.active_connections with
  | none => "Not Connected"
  | some (cls, d) => cls.statusFn d

/-- `VPNManager.save_profile`: upsert the record
`{"name": profile_name, "type": vpn_type.lower(), "config": vpn_config}`
keyed by `profile_name` (the file write is modelled as succeeding). -/
def VPNManager.save_profile (m : VPNManager) (profile_name vpn_type : String)
    (vpn_config : VpnConfig) : Bool × VPNManager :=
  (true,
   { m with
     store :=
       dictInsert profile_name
         ({ name := profile_name, type := (pyLower vpn_type), config := vpn_config }) m.store })

/-- `VPNManager.load_profile`: read the record keyed by the name, absent
files giving `None`. -/
def VPNManager.load_profile (m : VPNManager) (profile_name : String) : Option ProfileRecord :=
  List.lookup profile_name m.store

/-- `VPNManager.delete_profile`. -/
def VPNManager.delete_profile (m : VPNManager) (profile_name : String) : Bool × VPNManager :=
  match List.lookup profile_name m.store with
  | none => (false, m)
  | some _ => (true, { m with store := dictRemove profile_name m.store })

/-! ## Connection orchestrator (`src/core/connection_manager.py`) -/

/-- The behavior of the remote-access collaborator for one call:
`RemoteAccessManager.initiate_access(type, details)` either returns a
`(success, message)` pair or raises. -/
abbrev RaOracle := String → List (String × String) → Except String (Bool × String)

/-- The state of a `ConnectionManager`: its `VPNManager` and
`current_active_profile` (the orchestrator is `Idle` when the latter is
`None`). -/
structure ConnectionManager where
  vpn_manager : VPNManager
  current_active_profile : Option String

/-- The body of `ConnectionManager.connect_to_profile` — everything inside
its `try`.  A raised exception is returned as `.error (e, s)` where `s`
is the heap state (orchestrator plus manager) at the moment of the
raise; the only raising collaborator reachable from the body is the
remote-access manager, since `VPNManager.connect` and
`VPNManager.load_profile` catch their own exceptions.  The guard
`if self.current_active_profile:` is Python truthiness, so an empty
active-profile name behaves like `Idle`. -/
def ConnectionManager.connectToProfileBody (ra : RaOracle) (s : ConnectionManager)
    (profile_name : String) :
    Except (String × ConnectionManager) ((Bool × String) × ConnectionManager) :=
  if pyTruthyStr s.current_active_profile then
    if s.current_active_profile == some profile_name then
      .ok ((true, "Profile \t\x27" ++ profile_name ++ "\x27\t is already connected."), s)
    else
      .ok ((false, "Another profile (\t\x27" ++ s.current_active_profile.getD ""
        ++ "\x27\t) is currently active. Please disconnect it first."), s)
  else
    match s.vpn_manager.load_profile profile_name with
    | none => .ok ((false, "Profile \t\x27" ++ profile_name ++ "\x27\t not found."), s)
    | some profile_data =>
      let vpn_type := profile_data.type
      let vpn_config := profile_data.config
      if vpn_type == "" then
        .ok ((false, "VPN type not specified in profile \t\x27" ++ profile_name ++ "\x27\t."), s)
      else
        let r := s.vpn_manager.connect profile_name vpn_type vpn_config
        if r.1.1 then
          let s1 : ConnectionManager :=
            { vpn_manager := r.2, current_active_profile := some profile_name }
          let message := "Successfully connected to VPN profile: " ++ profile_name ++ ". " ++ r.1.2
          match vpn_config.remote_access with
          | some rac =>
            if pyTruthyStr rac.raType && pyTruthyDict rac.details
                && rac.raType != some "None" then
              match ra (rac.raType.getD "") (rac.details.getD []) with
              | .error e => .error (e, s1)
              | .ok (_, ra_message) => .ok ((true, message ++ " " ++ ra_message), s1)
            else if rac.raType == some "None" then
              .ok ((true, message ++ " Remote access type is \x27None\x27."), s1)
            else
              .ok ((true, message ++ " Remote access configured but type or details missing."), s1)
          | none =>
            .ok ((true, message ++ " No remote access configured for this profile."), s1)
        else
          .ok ((false, "Failed to connect to VPN profile: " ++ profile_name ++ ". Reason: "
            ++ r.1.2), { s with vpn_manager := r.2 })

/-- `ConnectionManager.connect_to_profile`: the body wrapped in the
`except Exception` recovery boundary, which forces
`current_active_profile` back to `None` and converts the exception into
a `(False, message)` result.  Total: no exception escapes to the caller. -/
def ConnectionManager.connect_to_profile (ra : RaOracle) (s : ConnectionManager)
    (profile_name : String) : (Bool × String) × ConnectionManager :=
  match s.connectToProfileBody ra profile_name with
  | .ok r => r
  | .error (e, sx) =>
    ((false, "An unexpected critical error occurred while connecting to \x27" ++ profile_name
      ++ "\x27: " ++ e ++ ". Check logs."),
     { sx with current_active_profile := none })

/-- `ConnectionManager.disconnect_current_profile`.  `VPNManager.disconnect`
catches its own exceptions, so the `try` body of the method cannot raise and
the method is total as written. -/
def ConnectionManager.disconnect_current_profile (s : ConnectionManager) :
    (Bool × String) × ConnectionManager :=
  if !pyTruthyStr s.current_active_profile then
    ((true, "No VPN profile is currently active."), s)
  else
    let name := s.current_active_profile.getD ""
    let r := s.vpn_manager.disconnect name
    if r.1.1 then
      ((true, "Successfully disconnected from VPN profile: " ++ name ++ ". " ++ r.1.2),
       { vpn_manager := r.2, current_active_profile := none })
    else
      ((false, "Failed to disconnect VPN profile: " ++ name ++ ". Reason: " ++ r.1.2),
       { s with vpn_manager := r.2 })

/-- `ConnectionManager.get_current_connection_status`. -/
def ConnectionManager.get_current_connection_status (s : ConnectionManager) : String :=
  if !pyTruthyStr s.current_active_profile then "No active connection"
  else s.vpn_manager.get_connection_status (s.current_active_profile.getD "")

/-! ## Call sequences on the orchestrator/manager pair -/

/-- One external call on the orchestrator boundary.  A `connect` op
carries the behavior of the remote-access collaborator for that call. -/
inductive Op where
  | connect (profile_name : String) (ra : RaOracle)
  | disconnect

/-- State transition of one call (results discarded). -/
def ConnectionManager.step (s : ConnectionManager) : Op → ConnectionManager
  | .connect n ra => (s.connect_to_profile ra n).2
  | .disconnect => s.disconnect_current_profile.2

/-- Run a sequence of calls. -/
def ConnectionManager.run (s : ConnectionManager) (ops : List Op) : ConnectionManager :=
  ops.foldl ConnectionManager.step s

/-- A freshly constructed orchestrator/manager pair: `Idle`, empty
active-connection table, with a given registry and on-disk profiles. -/
def ConnectionManager.init (registry : List (String × DriverClass))
    (store : List (String × ProfileRecord)) : ConnectionManager :=
  { vpn_manager :=
      { registered_drivers := registry, active_connections := [], store := store },
    current_active_profile := none }

/-! ## Concrete fixtures used by witnesses and counterexamples -/

/-- A remote-access collaborator that succeeds silently. -/
def raSilent : RaOracle := fun _ _ => .ok (true, "")

/-- A remote-access collaborator that raises (e.g. `tempfile.mkdtemp`
failing inside `RemoteAccessManager._launch_rdp` before its inner `try`). -/
def raBoom : RaOracle := fun _ _ => .error "boom"

/-- A remote-access collaborator that returns failure without raising. -/
def raFailRdp : RaOracle := fun _ _ => .ok (false, "RDP launch failed")

/-- A registrable driver class whose `connect` returns `(False, …)`
without raising. -/
def failDriver : DriverClass where
  connectFn := fun d => .ok (false, "connect refused", d)
  disconnectFn := fun d => .ok (true, "bye", d)
  statusFn := fun _ => "Disconnected"

/-- A registrable driver class whose `connect` raises. -/
def boomDriver : DriverClass where
  connectFn := fun _ => .error "driver exploded"
  disconnectFn := fun d => .ok (true, "bye", d)
  statusFn := fun _ => "Disconnected"

/-- A config with an empty automation sequence and no remote access. -/
def cfgEmptySeq : VpnConfig := { automation_sequence := some [], remote_access := none }

/-- A config with an empty automation sequence and an RDP remote-access
descriptor that triggers the collaborator. -/
def cfgWithRa : VpnConfig :=
  { automation_sequence := some [],
    remote_access := some { raType := some "RDP", details := some [("hostname", "h")] } }

/-- The orchestrator state reached from a fresh pair by successfully
connecting a profile whose name is the empty string: the state is
`Connected("")`, with the driver recorded in the active-connection
table, yet the truthiness guards treat it like `Idle`. -/
def emptyNameConnected : ConnectionManager :=
  ((ConnectionManager.init [("dummy", FortiClientDriver)]
      [("", ⟨"", "dummy", cfgEmptySeq⟩), ("B", ⟨"B", "dummy", cfgEmptySeq⟩)]).connect_to_profile
    raSilent "").2

/-- An orchestrator whose store holds one profile with a triggering
remote-access descriptor. -/
def oneRaProfile : ConnectionManager :=
  ConnectionManager.init [("dummy", FortiClientDriver)] [("P", ⟨"P", "dummy", cfgWithRa⟩)]

/-- An orchestrator whose store holds one profile handled by the raising
`boomDriver`. -/
def oneBoomProfile : ConnectionManager :=
  ConnectionManager.init [("boomdrv", boomDriver)] [("Q", ⟨"Q", "boomdrv", cfgEmptySeq⟩)]

/-- The orchestrator state `Connected("")` reached from a fresh pair
(its registry also holds the raising `boomDriver` and its store a
profile `Q` of that type) by successfully connecting the stored profile
named `""`. -/
def emptyNameBoomConnected : ConnectionManager :=
  ((ConnectionManager.init [("dummy", FortiClientDriver), ("boomdrv", boomDriver)]
      [("", ⟨"", "dummy", cfgEmptySeq⟩),
       ("Q", ⟨"Q", "boomdrv", cfgEmptySeq⟩)]).connect_to_profile raSilent "").2

/-- Initial state for the two-entry counterexample run: two stored
profiles, the first with a triggering remote-access descriptor. -/
def twoProfilesInit : ConnectionManager :=
  ConnectionManager.init [("dummy", FortiClientDriver)]
    [("P1", ⟨"P1", "dummy", cfgWithRa⟩), ("P2", ⟨"P2", "dummy", cfgEmptySeq⟩)]

/-- Final state of the counterexample run: connect `P1` (the
remote-access collaborator raises after the driver connected), then
connect `P2`. -/
def twoProfilesFinal : ConnectionManager :=
  twoProfilesInit.run [.connect "P1" raBoom, .connect "P2" raSilent]

/-- A plain `Connected("A")` orchestrator with an empty manager. -/
def connectedA : ConnectionManager :=
  { vpn_manager := { registered_drivers := [], active_connections := [], store := [] },
    current_active_profile := some "A" }

/-- A `Connected("A")` orchestrator whose table holds a connected
FortiClient instance for `"A"`. -/
def connectedAWithDriver : ConnectionManager :=
  { vpn_manager :=
      { registered_drivers := [],
        active_connections := [("A", (FortiClientDriver, ⟨"A", cfgEmptySeq, true, true⟩))],
        store := [] },
    current_active_profile := some "A" }

/-- An orchestrator whose store holds one profile handled by `failDriver`. -/
def oneFailProfile : ConnectionManager :=
  ConnectionManager.init [("faildrv", failDriver)] [("P", ⟨"P", "faildrv", cfgEmptySeq⟩)]

/-- An empty profile store/manager. -/
def emptyVm : VPNManager := { registered_drivers := [], active_connections := [], store := [] }

/-- A driver state for the simulated-connect counterexample: profile
`WorkVPN`, empty automation sequence, engine available. -/
def workVpnDriverState : DriverState := ⟨"WorkVPN", cfgEmptySeq, false, true⟩

/-- Probe oracle whose first probe raises a genuine backend error and
whose later probes would find the image. -/
def probeErrThenFound : String → Nat → ProbeOutcome :=
  fun _ i => if i = 0 then .err "backend failure" else .found (1, 2, 3, 4)

/-- Probe oracle whose first probe merely misses and whose later probes
find the image. -/
def probeMissThenFound : String → Nat → ProbeOutcome :=
  fun _ i => if i = 0 then .notFoundNone else .found (1, 2, 3, 4)

/-- The invariant claimed for the orchestrator/manager pair, strengthened
to an inductive one: when `Idle` the active-connection table is empty;
when `Connected(a)` the name `a` is nonempty and the table is empty or
holds exactly the entry for `a`. -/
def StateOK (s : ConnectionManager) : Prop :=
  (s.current_active_profile = none → s.vpn_manager.active_connections = []) ∧
  (∀ a, s.current_active_profile = some a → a ≠ "" ∧
    (s.vpn_manager.active_connections = [] ∨
     ∃ cd, s.vpn_manager.active_connections = [(a, cd)]))

/-- Side conditions on one call under which the single-entry invariant is
preserved: a connect call must target a nonempty profile name and carry
a remote-access collaborator that returns rather than raises. -/
def OpOK : Op → Prop
  | .connect n ra => n ≠ "" ∧ ∀ t d, ∃ r, ra t d = .ok r
  | .disconnect => True

/-! ## Helper lemmas -/

/-- Looking up a key just upserted with Python-dict semantics yields the
inserted value. -/
theorem lookup_dictInsert {α : Type} (k : String) (v : α) (l : List (String × α)) :
    List.lookup k (dictInsert k v l) = some v := by
  induction l with
  | nil => simp [dictInsert, List.lookup]
  | cons p rest ih =>
    obtain ⟨k1, v1⟩ := p
    by_cases h : k1 == k
    · simp [dictInsert, h, List.lookup]
    · have hne : (k == k1) = false := by
        rw [beq_eq_false_iff_ne]
        intro hk
        rw [beq_iff_eq] at h
        exact h hk.symm
      simp [dictInsert, h, List.lookup, hne, ih]

/-- An infix of `b` is an infix of `a ++ b`, transported along
`String.toList`. -/
theorem toList_infix_append_right (p a b : String) (h : p.toList <:+: b.toList) :
    p.toList <:+: (a ++ b).toList := by
  rcases h with ⟨s, t, hst⟩
  refine ⟨a.toList ++ s, t, ?_⟩
  have hd : (a ++ b).toList = a.toList ++ b.toList := by
    simp [String.toList, String.data_append]
  rw [hd, ← hst]
  simp [List.append_assoc]

/-- If every probe within the fuel is a benign failure (a miss or an
`ImageNotFoundException`), the `find_image_on_screen` loop exhausts its
fuel and reports not-found. -/
theorem findImageFrom_benign (probe : String → Nat → ProbeOutcome) (image_path : String) :
    ∀ (fuel i : Nat),
      (∀ j, j < fuel → AutomationEngine.isBenignFail (probe image_path (i + j)) = true) →
      (AutomationEngine.findImageFrom probe image_path fuel i).1 = none := by
  intro fuel
  induction fuel with
  | zero => intro i _; rfl
  | succ fuel ih =>
    intro i h
    have h0 : AutomationEngine.isBenignFail (probe image_path i) = true := by
      have := h 0 (Nat.succ_pos fuel)
      simpa using this
    have hshift : ∀ j, j < fuel →
        AutomationEngine.isBenignFail (probe image_path ((i + 1) + j)) = true := by
      intro j hj
      have := h (j + 1) (by omega)
      have harith : i + (j + 1) = (i + 1) + j := by omega
      rwa [harith] at this
    cases hp : probe image_path i with
    | found l => rw [hp] at h0; simp [AutomationEngine.isBenignFail] at h0
    | notFoundNone =>
      simp only [AutomationEngine.findImageFrom, hp]
      exact ih (i + 1) hshift
    | notFoundExc =>
      simp only [AutomationEngine.findImageFrom, hp]
      exact ih (i + 1) hshift
    | err e => rw [hp] at h0; simp [AutomationEngine.isBenignFail] at h0

/-! ## Claim C5: save/load round trip -/

/-- Claim C5, counterexample: saving a profile whose type is `"Dummy"`
and loading it back yields a record whose `type` field is `"dummy"`, not
`"Dummy"`: the loaded record is not equal to the saved profile in its
`type` field. -/
theorem save_load_type_lowercased_cex :
    (emptyVm.save_profile "P" "Dummy" cfgEmptySeq).2.load_profile "P"
        = some ⟨"P", "dummy", cfgEmptySeq⟩ ∧
    (emptyVm.save_profile "P" "Dummy" cfgEmptySeq).2.load_profile "P"
        ≠ some ⟨"P", "Dummy", cfgEmptySeq⟩ := by
  exact ⟨by decide, by decide⟩

/-- Claim C5, amended: for every profile `(name, type, config)` and every
store state, saving and then loading by the name returns a record equal
to the profile in its `name` and `config` fields, and whose `type` field
is the lowercased saved type (hence equal whenever the saved type is
already lowercase). -/
theorem save_load_roundtrip (m : VPNManager) (profile_name vpn_type : String)
    (cfg : VpnConfig) :
    (m.save_profile profile_name vpn_type cfg).2.load_profile profile_name
      = some ⟨profile_name, pyLower vpn_type, cfg⟩ := by
  simp [VPNManager.save_profile, VPNManager.load_profile, lookup_dictInsert]

/-! ## Claim C6: headless safety -/

/-- Claim C6: with the automation backend unavailable, no executor
operation raises (each returns an `.ok` result): `find_image_on_screen`
returns not-found, `wait_for_image_to_disappear` returns `true`, and
`get_screen_resolution` returns `(0, 0)`, for every target and every
parameter choice. -/
theorem headless_operations_safe (probe : String → Nat → ProbeOutcome)
    (image_path : String) (budget outerBudget innerBudget : Nat) (size : Nat × Nat) :
    AutomationEngine.find_image_on_screen false probe image_path budget = .ok none ∧
    AutomationEngine.wait_for_image_to_disappear false probe image_path
        outerBudget innerBudget = .ok true ∧
    AutomationEngine.get_screen_resolution false size = (0, 0) :=
  ⟨rfl, rfl, rfl⟩

/-! ## Claim C7: locate probe budget -/

/-- Claim C7, counterexample: with the backend available and a probe
sequence whose first probe raises a genuine backend error while every
later probe would find the image, `find_image_on_screen` returns
not-found at once — the error is swallowed rather than propagated, and
not-found is surfaced without exhausting the budget (with a merely
missing first probe the same budget finds the image). -/
theorem locate_error_probe_swallowed_cex :
    AutomationEngine.find_image_on_screen true probeErrThenFound "img.png" 5 = .ok none ∧
    AutomationEngine.find_image_on_screen true probeMissThenFound "img.png" 5
      = .ok (some (1, 2, 3, 4)) := by
  exact ⟨rfl, rfl⟩

/-- Claim C7, amended: with the backend available, `find_image_on_screen`
never raises (it always returns an `.ok` result); a single failed probe
that merely misses (returns `None` or raises `ImageNotFoundException`)
never causes an exception or a not-found result — not-found from such
probes is surfaced only after the whole budget of probes is exhausted;
but a genuine I/O/backend error on a probe makes it return not-found
immediately, swallowing the error instead of propagating it. -/
theorem locate_probe_budget_behavior (probe : String → Nat → ProbeOutcome)
    (image_path : String) (budget : Nat) :
    (∃ r, AutomationEngine.find_image_on_screen true probe image_path budget = .ok r) ∧
    ((∀ i, i < budget → AutomationEngine.isBenignFail (probe image_path i) = true) →
      AutomationEngine.find_image_on_screen true probe image_path budget = .ok none) ∧
    (∀ e, probe image_path 0 = .err e → 0 < budget →
      AutomationEngine.find_image_on_screen true probe image_path budget = .ok none) := by
  refine ⟨⟨(AutomationEngine.findImageFrom probe image_path budget 0).1, rfl⟩, ?_, ?_⟩
  · intro h
    have := findImageFrom_benign probe image_path budget 0 (by simpa using h)
    simp [AutomationEngine.find_image_on_screen, this]
  · intro e he hpos
    obtain ⟨m, rfl⟩ : ∃ m, budget = m + 1 := ⟨budget - 1, by omega⟩
    simp [AutomationEngine.find_image_on_screen, AutomationEngine.findImageFrom, he]

/-- Claim C7, witness: a budget of two probes that both merely miss
yields not-found via the amended theorem. -/
theorem locate_probe_budget_behavior_witness :
    AutomationEngine.find_image_on_screen true (fun _ _ => .notFoundExc) "x.png" 2
      = .ok none :=
  (locate_probe_budget_behavior (fun _ _ => .notFoundExc) "x.png" 2).2.1 (fun _ _ => rfl)

/-! ## Claim C9: empty automation sequence simulates success -/

/-- Claim C9, counterexample: for the FortiClient driver on the
`WorkVPN` profile of the spec with an empty automation sequence, `connect` returns
success but its message does not contain the substring `"simulated"`
(the source messages say `Simulating`/`Simulated`, capitalised). -/
theorem driver_simulated_message_case_cex :
    (fortiClientConnect workVpnDriverState).1 = true ∧
    ¬ ("simulated".toList <:+: (fortiClientConnect workVpnDriverState).2.1.toList) := by
  exact ⟨rfl, by decide⟩

/-- Claim C9, amended: for both concrete drivers and every driver state
whose engine is available and whose config has an empty or absent
`automation_sequence`, `connect` returns `(True, message)` with the
message containing `"Simulated"` (capitalised, from
`"... Simulating connect. Simulated connection successful."`), and the
internal state of the driver becomes connected. -/
theorem empty_sequence_simulates_success (d : DriverState)
    (heng : d.automation_engine = true)
    (hseq : d.vpn_config.automation_sequence = none ∨
      d.vpn_config.automation_sequence = some []) :
    ((fortiClientConnect d).1 = true ∧ (fortiClientConnect d).2.2.is_connected = true ∧
      ("Simulated".toList <:+: (fortiClientConnect d).2.1.toList)) ∧
    ((globalProtectConnect d).1 = true ∧ (globalProtectConnect d).2.2.is_connected = true ∧
      ("Simulated".toList <:+: (globalProtectConnect d).2.1.toList)) := by
  have hget : d.vpn_config.automation_sequence.getD [] = [] := by
    rcases hseq with h | h <;> simp [h]
  have hsimContained : "Simulated".toList <:+: " Simulated connection successful.".toList := by
    decide
  have hmsgF : (fortiClientConnect d).2.1
      = ("Warning: No automation sequence defined for FortiClient profile "
          ++ d.profile_name ++ ". Simulating connect.")
        ++ " Simulated connection successful." := by
    simp [fortiClientConnect, heng, hget]
  have hmsgG : (globalProtectConnect d).2.1
      = ("Warning: No automation sequence defined for GlobalProtect profile "
          ++ d.profile_name ++ ". Simulating connect.")
        ++ " Simulated connection successful." := by
    simp [globalProtectConnect, heng, hget]
  refine ⟨⟨?_, ?_, ?_⟩, ⟨?_, ?_, ?_⟩⟩
  · simp [fortiClientConnect, heng, hget]
  · simp [fortiClientConnect, heng, hget]
  · rw [hmsgF]
    exact toList_infix_append_right _ _ _ hsimContained
  · simp [globalProtectConnect, heng, hget]
  · simp [globalProtectConnect, heng, hget]
  · rw [hmsgG]
    exact toList_infix_append_right _ _ _ hsimContained

/-- Claim C9, witness: the amended theorem applied to the `WorkVPN`
driver state. -/
theorem empty_sequence_simulates_success_witness :
    (fortiClientConnect workVpnDriverState).1 = true ∧
    (fortiClientConnect workVpnDriverState).2.2.is_connected = true ∧
    ("Simulated".toList <:+: (fortiClientConnect workVpnDriverState).2.1.toList) :=
  (empty_sequence_simulates_success workVpnDriverState rfl (Or.inr rfl)).1

/-! ## Claim C1: a second profile is refused while one is active -/

/-- Claim C1, counterexample: from a fresh pair, successfully connecting
a stored profile whose name is the empty string reaches the state
`Connected("")`; from there `connect_to_profile "B"` (with `"B" ≠ ""`)
returns `(True, …)` and moves the state to `Connected("B")` instead of
refusing — the truthiness guard treats `Connected("")` as idle. -/
theorem connect_second_profile_empty_name_cex :
    emptyNameConnected.current_active_profile = some "" ∧
    (emptyNameConnected.connect_to_profile raSilent "B").1.1 = true ∧
    (emptyNameConnected.connect_to_profile raSilent "B").2.current_active_profile
      = some "B" := by
  exact ⟨by decide, by decide, by decide⟩

/-- Claim C1, amended: for every state `Connected(a)` with a nonempty
active name `a` and every profile name `b ≠ a`, `connect_to_profile b`
returns `(False, …)` and leaves the whole orchestrator/manager state
unchanged (in particular no driver is created or recorded). -/
theorem connect_refuses_second_profile (ra : RaOracle) (s : ConnectionManager)
    (a b : String) (hcur : s.current_active_profile = some a) (ha : a ≠ "")
    (hab : b ≠ a) :
    (s.connect_to_profile ra b).1.1 = false ∧ (s.connect_to_profile ra b).2 = s := by
  have htr : pyTruthyStr s.current_active_profile = true := by
    simp [pyTruthyStr, hcur, ha]
  have hne : (s.current_active_profile == some b) = false := by
    simp [hcur]
    exact fun h => hab h.symm
  simp [ConnectionManager.connect_to_profile, ConnectionManager.connectToProfileBody,
        htr, hne]

/-- Claim C1, witness: refusal at the concrete state `Connected("A")`. -/
theorem connect_refuses_second_profile_witness :
    (connectedA.connect_to_profile raSilent "B").1.1 = false ∧
    (connectedA.connect_to_profile raSilent "B").2 = connectedA :=
  connect_refuses_second_profile raSilent connectedA "A" "B" rfl (by decide) (by decide)

/-! ## Claim C2: exception recovery during connect -/

/-- Claim C2, counterexample: from the reachable state `Connected("")`,
connecting a profile whose driver raises makes `connect_to_profile`
return `(False, …)` — the exception is converted by the inner boundary
of `VPNManager.connect` and never reaches the orchestrator `except`
clause — and `current_active_profile` stays `""`: it is not forced back
to `None` (`Idle`) before returning, contrary to the claim. -/
theorem driver_exception_keeps_empty_name_cex :
    emptyNameBoomConnected.current_active_profile = some "" ∧
    boomDriver.connectFn ⟨"Q", cfgEmptySeq, false, true⟩ = .error "driver exploded" ∧
    (emptyNameBoomConnected.connect_to_profile raSilent "Q").1.1 = false ∧
    (emptyNameBoomConnected.connect_to_profile raSilent "Q").2.current_active_profile
      = some "" ∧
    (emptyNameBoomConnected.connect_to_profile raSilent "Q").2.current_active_profile
      ≠ none := by
  exact ⟨by decide, rfl, by decide, by decide, by decide⟩

/-- Claim C2, amended: `connect_to_profile` is a total function of the
collaborator behavior (no exception escapes to the caller) and an
exception always yields a `(False, message)` result, through one of two
recovery boundaries.  An exception raised inside the orchestrator `try`
body (in the source only the remote-access collaborator raises there;
the store, registry and driver are guarded by inner boundaries) forces
the state back to `Idle` (`current_active_profile = None`) before
returning.  An exception raised by the driver is converted to
`(False, message)` by the inner boundary of `VPNManager.connect` and
leaves the whole orchestrator/manager state unchanged — still `Idle`
when the call began with a falsy active profile, but from the reachable
degenerate state `Connected("")` the active profile remains `""` rather
than being forced to `None`. -/
theorem connect_collaborator_exception_recovery (ra : RaOracle) (s : ConnectionManager)
    (profile_name : String) :
    (∀ e sx, s.connectToProfileBody ra profile_name = .error (e, sx) →
      (s.connect_to_profile ra profile_name).1.1 = false ∧
      (s.connect_to_profile ra profile_name).2.current_active_profile = none) ∧
    (∀ rec cls e, pyTruthyStr s.current_active_profile = false →
      s.vpn_manager.load_profile profile_name = some rec →
      rec.type ≠ "" →
      List.lookup (pyLower rec.type) s.vpn_manager.registered_drivers = some cls →
      cls.connectFn ⟨profile_name, rec.config, false, true⟩ = .error e →
      (s.connect_to_profile ra profile_name).1.1 = false ∧
      (s.connect_to_profile ra profile_name).2 = s) := by
  constructor
  · intro e sx hb
    unfold ConnectionManager.connect_to_profile
    rw [hb]
    exact ⟨rfl, rfl⟩
  · intro rec cls e hfal hload htype hreg hconn
    have hvm : s.vpn_manager.connect profile_name rec.type rec.config
        = ((false, "Unexpected error in VPNManager during connect: " ++ e),
           s.vpn_manager) := by
      simp [VPNManager.connect, VPNManager.create_connection, hreg, hconn]
    simp [ConnectionManager.connect_to_profile, ConnectionManager.connectToProfileBody,
          hfal, hload, htype, hvm]

/-- Claim C2, witness: both recovery boundaries at concrete inputs — a
raising remote-access collaborator reaches the orchestrator boundary
and the state ends `Idle`; a raising driver is absorbed by the manager
boundary and the state is unchanged (here it began `Idle`). -/
theorem connect_collaborator_exception_recovery_witness :
    ((oneRaProfile.connect_to_profile raBoom "P").1.1 = false ∧
     (oneRaProfile.connect_to_profile raBoom "P").2.current_active_profile = none) ∧
    ((oneBoomProfile.connect_to_profile raSilent "Q").1.1 = false ∧
     (oneBoomProfile.connect_to_profile raSilent "Q").2 = oneBoomProfile) :=
  ⟨(connect_collaborator_exception_recovery raBoom oneRaProfile "P").1 "boom" _ rfl,
   (connect_collaborator_exception_recovery raSilent oneBoomProfile "Q").2
     ⟨"Q", "boomdrv", cfgEmptySeq⟩ boomDriver "driver exploded"
     rfl rfl (by decide) rfl rfl⟩

/-! ## Claim C8: a failed driver connect leaves the orchestrator Idle -/

/-- Claim C8: if the orchestrator is `Idle`, the profile resolves to a
registered driver class whose `connect` returns
`(False, …)` without raising, then `connect_to_profile` returns
`(False, …)` and `get_current_connection_status` afterwards returns
`"No active connection"`. -/
theorem failed_connect_leaves_idle (ra : RaOracle) (s : ConnectionManager)
    (profile_name : String) (rec : ProfileRecord) (cls : DriverClass)
    (failMsg : String) (d1 : DriverState)
    (hcur : s.current_active_profile = none)
    (hload : s.vpn_manager.load_profile profile_name = some rec)
    (htype : rec.type ≠ "")
    (hreg : List.lookup (pyLower rec.type) s.vpn_manager.registered_drivers = some cls)
    (hconn : cls.connectFn ⟨profile_name, rec.config, false, true⟩
      = .ok (false, failMsg, d1)) :
    (s.connect_to_profile ra profile_name).1.1 = false ∧
    (s.connect_to_profile ra profile_name).2.get_current_connection_status
      = "No active connection" := by
  have hvm : s.vpn_manager.connect profile_name rec.type rec.config
      = ((false, failMsg), s.vpn_manager) := by
    simp [VPNManager.connect, VPNManager.create_connection, hreg, hconn]
  simp [ConnectionManager.connect_to_profile, ConnectionManager.connectToProfileBody,
        ConnectionManager.get_current_connection_status,
        hcur, pyTruthyStr, hload, htype, hvm]

/-- Claim C8, witness: a registered driver class that refuses to connect
leaves the concrete pair reporting no active connection. -/
theorem failed_connect_leaves_idle_witness :
    (oneFailProfile.connect_to_profile raSilent "P").1.1 = false ∧
    (oneFailProfile.connect_to_profile raSilent "P").2.get_current_connection_status
      = "No active connection" :=
  failed_connect_leaves_idle raSilent oneFailProfile "P" ⟨"P", "faildrv", cfgEmptySeq⟩
    failDriver "connect refused" ⟨"P", cfgEmptySeq, false, true⟩
    rfl rfl (by decide) rfl rfl

/-! ## Claim C10: remote-access failure does not fail the connect -/

/-- Claim C10: if the orchestrator is `Idle`, the profile resolves to a
registered driver whose `connect` succeeds, the stored
`remote_access` descriptor triggers the collaborator, and
`initiate_access` returns `(False, message)` without raising, then
`connect_to_profile` still returns `(True, …)`, the state becomes
`Connected(name)`, and the collaborator message is appended to the
result message. -/
theorem remote_access_failure_preserves_connect (ra : RaOracle) (s : ConnectionManager)
    (profile_name : String) (rec : ProfileRecord) (cls : DriverClass)
    (connMsg raMsg : String) (d1 : DriverState) (rac : RemoteAccessCfg)
    (hcur : s.current_active_profile = none)
    (hload : s.vpn_manager.load_profile profile_name = some rec)
    (htype : rec.type ≠ "")
    (hreg : List.lookup (pyLower rec.type) s.vpn_manager.registered_drivers = some cls)
    (hconn : cls.connectFn ⟨profile_name, rec.config, false, true⟩
      = .ok (true, connMsg, d1))
    (hrac : rec.config.remote_access = some rac)
    (htrig : pyTruthyStr rac.raType = true)
    (hdet : pyTruthyDict rac.details = true)
    (hnotnone : rac.raType ≠ some "None")
    (hra : ra (rac.raType.getD "") (rac.details.getD []) = .ok (false, raMsg)) :
    (s.connect_to_profile ra profile_name).1.1 = true ∧
    (s.connect_to_profile ra profile_name).2.current_active_profile = some profile_name ∧
    (s.connect_to_profile ra profile_name).1.2
      = "Successfully connected to VPN profile: " ++ profile_name ++ ". " ++ connMsg
        ++ " " ++ raMsg := by
  have hvm : s.vpn_manager.connect profile_name rec.type rec.config
      = ((true, connMsg),
         { s.vpn_manager with
           active_connections :=
             (dictInsert profile_name (cls, d1) s.vpn_manager.active_connections) }) := by
    simp [VPNManager.connect, VPNManager.create_connection, hreg, hconn]
  have hnone : pyTruthyStr none = false := rfl
  simp [ConnectionManager.connect_to_profile, ConnectionManager.connectToProfileBody,
        hcur, hnone, hload, htype, hvm, hrac, htrig, hdet, hnotnone, hra]

/-- Claim C10, witness: the concrete pair with a triggering RDP
descriptor and a collaborator that reports failure still connects. -/
theorem remote_access_failure_preserves_connect_witness :
    (oneRaProfile.connect_to_profile raFailRdp "P").1.1 = true ∧
    (oneRaProfile.connect_to_profile raFailRdp "P").2.current_active_profile = some "P" ∧
    (oneRaProfile.connect_to_profile raFailRdp "P").1.2
      = "Successfully connected to VPN profile: " ++ "P" ++ ". "
        ++ (fortiClientConnect ⟨"P", cfgWithRa, false, true⟩).2.1
        ++ " " ++ "RDP launch failed" :=
  remote_access_failure_preserves_connect raFailRdp oneRaProfile "P"
    ⟨"P", "dummy", cfgWithRa⟩ FortiClientDriver
    (fortiClientConnect ⟨"P", cfgWithRa, false, true⟩).2.1 "RDP launch failed"
    ⟨"P", cfgWithRa, true, true⟩ ⟨some "RDP", some [("hostname", "h")]⟩
    rfl rfl (by decide) rfl rfl rfl rfl rfl (by decide) rfl

/-! ## Claim C4: idempotent disconnect -/

/-- Claim C4, counterexample: at the reachable state `Connected("")`
(whose recorded driver would succeed in disconnecting when called),
`disconnect_current_profile` returns `(True, …)` twice, but the final
state is still `Connected("")`, not `Idle` — the truthiness guard never
clears the empty-named active profile. -/
theorem disconnect_twice_empty_name_cex :
    (emptyNameConnected.vpn_manager.disconnect "").1.1 = true ∧
    emptyNameConnected.disconnect_current_profile.1.1 = true ∧
    emptyNameConnected.disconnect_current_profile.2.disconnect_current_profile.1.1
      = true ∧
    emptyNameConnected.disconnect_current_profile.2.disconnect_current_profile.2.current_active_profile
      = some "" := by
  exact ⟨by decide, by decide, by decide, by decide⟩

/-- Claim C4, amended: `disconnect_current_profile` in state `Idle`
returns `(True, …)`, and called twice in a row from any state whose
active profile name is not the empty string and in which the manager
disconnect of that profile succeeds, it returns `(True, …)` both times
and leaves the state `Idle`. -/
theorem disconnect_idempotent (s : ConnectionManager)
    (hne : s.current_active_profile ≠ some "")
    (hsucc : ∀ a, s.current_active_profile = some a →
      (s.vpn_manager.disconnect a).1.1 = true) :
    s.disconnect_current_profile.1.1 = true ∧
    s.disconnect_current_profile.2.disconnect_current_profile.1.1 = true ∧
    s.disconnect_current_profile.2.disconnect_current_profile.2.current_active_profile
      = none := by
  have hnone : pyTruthyStr none = false := rfl
  cases hc : s.current_active_profile with
  | none =>
    simp [ConnectionManager.disconnect_current_profile, hc, hnone]
  | some a =>
    have ha : a ≠ "" := by
      intro h
      exact hne (by rw [hc, h])
    have hsa : pyTruthyStr (some a) = true := by simp [pyTruthyStr, ha]
    have h1 := hsucc a hc
    simp [ConnectionManager.disconnect_current_profile, hc, hsa, h1, hnone]

/-- Claim C4, witness: double disconnect at `Connected("A")` with a
connected FortiClient instance recorded for `"A"`. -/
theorem disconnect_idempotent_witness :
    connectedAWithDriver.disconnect_current_profile.1.1 = true ∧
    connectedAWithDriver.disconnect_current_profile.2.disconnect_current_profile.1.1
      = true ∧
    connectedAWithDriver.disconnect_current_profile.2.disconnect_current_profile.2.current_active_profile
      = none :=
  disconnect_idempotent connectedAWithDriver (by decide)
    (by
      intro a ha
      have h2 : (some "A" : Option String) = some a := ha
      have h3 : "A" = a := Option.some.inj h2
      subst h3
      decide)

/-! ## Claim C3: at most one active-connection entry -/

/-- Claim C3, counterexample: from a fresh pair, connect `P1` (driver
succeeds, the remote-access collaborator raises, the recovery boundary
resets `current_active_profile` but the table keeps the `P1` entry),
then connect `P2` — the active-connection table now holds two entries. -/
theorem active_connections_two_entries_cex :
    twoProfilesFinal.vpn_manager.active_connections.length = 2 ∧
    ¬ twoProfilesFinal.vpn_manager.active_connections.length ≤ 1 := by
  exact ⟨by decide, by decide⟩

/-- Case split on `VPNManager.connect`: it either reports failure and
leaves the manager untouched, or reports success and upserts exactly one
entry for the requested profile name. -/
theorem vm_connect_spec (m : VPNManager) (n t : String) (cfg : VpnConfig) :
    ((m.connect n t cfg).1.1 = false ∧ (m.connect n t cfg).2 = m) ∨
    (∃ cd, (m.connect n t cfg).1.1 = true ∧
      (m.connect n t cfg).2
        = { m with active_connections := dictInsert n cd m.active_connections }) := by
  rcases hc : m.create_connection n t cfg with _ | ⟨cls, d0⟩
  · left
    constructor <;> simp [VPNManager.connect, hc]
  · rcases hf : cls.connectFn d0 with e | ⟨succ, msg, d1⟩
    · left
      constructor <;> simp [VPNManager.connect, hc, hf]
    · cases succ with
      | false =>
        left
        constructor <;> simp [VPNManager.connect, hc, hf]
      | true =>
        right
        refine ⟨(cls, d1), ?_, ?_⟩ <;> simp [VPNManager.connect, hc, hf]

/-- A connect call from an invariant-respecting state, with a nonempty
target name and a non-raising remote-access collaborator, preserves the
invariant. -/
theorem connect_preserves (ra : RaOracle) (s : ConnectionManager) (n : String)
    (hok : StateOK s) (hn : n ≠ "") (hra : ∀ t d, ∃ r, ra t d = .ok r) :
    StateOK (s.connect_to_profile ra n).2 := by
  obtain ⟨hidle, hconn⟩ := hok
  have hnone : pyTruthyStr none = false := rfl
  cases hc : s.current_active_profile with
  | some a =>
    obtain ⟨ha, _⟩ := hconn a hc
    have hsa : pyTruthyStr (some a) = true := by simp [pyTruthyStr, ha]
    have hres : (s.connect_to_profile ra n).2 = s := by
      by_cases han : a = n
      · subst han
        simp [ConnectionManager.connect_to_profile, ConnectionManager.connectToProfileBody,
              hc, hsa]
      · simp [ConnectionManager.connect_to_profile, ConnectionManager.connectToProfileBody,
              hc, hsa, han]
    rw [hres]
    exact ⟨hidle, hconn⟩
  | none =>
    have hac : s.vpn_manager.active_connections = [] := hidle hc
    rcases hl : s.vpn_manager.load_profile n with _ | rec
    · have hres : (s.connect_to_profile ra n).2 = s := by
        simp [ConnectionManager.connect_to_profile, ConnectionManager.connectToProfileBody,
              hc, hnone, hl]
      rw [hres]
      exact ⟨hidle, hconn⟩
    · by_cases ht : (rec.type == "") = true
      · have hres : (s.connect_to_profile ra n).2 = s := by
          simp [ConnectionManager.connect_to_profile, ConnectionManager.connectToProfileBody,
                hc, hnone, hl, ht]
        rw [hres]
        exact ⟨hidle, hconn⟩
      · simp only [Bool.not_eq_true] at ht
        rcases vm_connect_spec s.vpn_manager n rec.type rec.config with
          ⟨hfail, hm⟩ | ⟨cd, hsucc2, hm⟩
        · have hres : (s.connect_to_profile ra n).2
              = { s with vpn_manager := (s.vpn_manager.connect n rec.type rec.config).2 } := by
            simp [ConnectionManager.connect_to_profile, ConnectionManager.connectToProfileBody,
                  hc, hnone, hl, ht, hfail]
          rw [hres, hm]
          exact ⟨hidle, hconn⟩
        · have hres : (s.connect_to_profile ra n).2
              = { vpn_manager := (s.vpn_manager.connect n rec.type rec.config).2,
                  current_active_profile := some n } := by
            rcases hrac : rec.config.remote_access with _ | rac
            · simp [ConnectionManager.connect_to_profile, ConnectionManager.connectToProfileBody,
                    hc, hnone, hl, ht, hsucc2, hrac]
            · by_cases hcond : (pyTruthyStr rac.raType && pyTruthyDict rac.details
                  && rac.raType != some "None") = true
              · obtain ⟨⟨rb, rm⟩, hr⟩ := hra (rac.raType.getD "") (rac.details.getD [])
                simp [ConnectionManager.connect_to_profile, ConnectionManager.connectToProfileBody,
                      hc, hnone, hl, ht, hsucc2, hrac, hcond, hr]
              · simp only [Bool.not_eq_true] at hcond
                by_cases hn2 : (rac.raType == some "None") = true
                · simp [ConnectionManager.connect_to_profile, ConnectionManager.connectToProfileBody,
                        hc, hnone, hl, ht, hsucc2, hrac, hcond, hn2]
                · simp only [Bool.not_eq_true] at hn2
                  simp [ConnectionManager.connect_to_profile, ConnectionManager.connectToProfileBody,
                        hc, hnone, hl, ht, hsucc2, hrac, hcond, hn2]
          rw [hres]
          constructor
          · intro h
            simp at h
          · intro a2 ha2
            have h2 : n = a2 := by
              have : (some n : Option String) = some a2 := ha2
              exact Option.some.inj this
            subst h2
            refine ⟨hn, Or.inr ⟨cd, ?_⟩⟩
            have : (s.vpn_manager.connect n rec.type rec.config).2.active_connections
                = dictInsert n cd s.vpn_manager.active_connections := by
              rw [hm]
            rw [this, hac]
            rfl

/-- A disconnect call from an invariant-respecting state preserves the
invariant. -/
theorem disconnect_preserves (s : ConnectionManager) (hok : StateOK s) :
    StateOK s.disconnect_current_profile.2 := by
  obtain ⟨hidle, hconn⟩ := hok
  have hnone : pyTruthyStr none = false := rfl
  cases hc : s.current_active_profile with
  | none =>
    have hres : s.disconnect_current_profile.2 = s := by
      simp [ConnectionManager.disconnect_current_profile, hc, hnone]
    rw [hres]
    exact ⟨hidle, hconn⟩
  | some a =>
    obtain ⟨ha, hac⟩ := hconn a hc
    have hsa : pyTruthyStr (some a) = true := by simp [pyTruthyStr, ha]
    rcases hac with hac | ⟨cd, hac⟩
    · have hd : s.vpn_manager.disconnect a
          = ((true, "Profile was not actively connected."), s.vpn_manager) := by
        simp [VPNManager.disconnect, hac]
      have hres : s.disconnect_current_profile.2
          = { vpn_manager := s.vpn_manager, current_active_profile := none } := by
        simp [ConnectionManager.disconnect_current_profile, hc, hsa, hd]
      rw [hres]
      constructor
      · intro _
        exact hac
      · intro a2 ha2
        simp at ha2
    · obtain ⟨cls, dst⟩ := cd
      have hlk : List.lookup a s.vpn_manager.active_connections = some (cls, dst) := by
        rw [hac]
        simp [List.lookup]
      rcases hf : cls.disconnectFn dst with e | ⟨succ, msg, d1⟩
      · have hd : s.vpn_manager.disconnect a
            = ((false, "Unexpected error in VPNManager during disconnect: " ++ e),
               s.vpn_manager) := by
          simp [VPNManager.disconnect, hlk, hf]
        have hres : s.disconnect_current_profile.2
            = { s with vpn_manager := s.vpn_manager } := by
          simp [ConnectionManager.disconnect_current_profile, hc, hsa, hd]
        rw [hres]
        exact ⟨hidle, hconn⟩
      · cases succ with
        | true =>
          have hd : s.vpn_manager.disconnect a
              = ((true, msg),
                 { s.vpn_manager with active_connections :=
                    (dictRemove a s.vpn_manager.active_connections) }) := by
            simp [VPNManager.disconnect, hlk, hf]
          have hrm : dictRemove a s.vpn_manager.active_connections = [] := by
            rw [hac]
            simp [dictRemove]
          have hres : s.disconnect_current_profile.2
              = { vpn_manager :=
                    { s.vpn_manager with active_connections :=
                       (dictRemove a s.vpn_manager.active_connections) },
                  current_active_profile := none } := by
            simp [ConnectionManager.disconnect_current_profile, hc, hsa, hd]
          rw [hres]
          constructor
          · intro _
            exact hrm
          · intro a2 ha2
            simp at ha2
        | false =>
          have hd : s.vpn_manager.disconnect a
              = ((false, msg),
                 { s.vpn_manager with active_connections :=
                    (dictInsert a (cls, d1) s.vpn_manager.active_connections) }) := by
            simp [VPNManager.disconnect, hlk, hf]
          have hins : dictInsert a (cls, d1) s.vpn_manager.active_connections
              = [(a, (cls, d1))] := by
            rw [hac]
            simp [dictInsert]
          have hres : s.disconnect_current_profile.2
              = { s with vpn_manager :=
                    { s.vpn_manager with active_connections :=
                       (dictInsert a (cls, d1) s.vpn_manager.active_connections) } } := by
            simp [ConnectionManager.disconnect_current_profile, hc, hsa, hd]
          rw [hres]
          constructor
          · intro h
            rw [hc] at h
            exact absurd h (by simp)
          · intro a2 ha2
            have ha2c : s.current_active_profile = some a2 := ha2
            rw [hc] at ha2c
            have h2 : a = a2 := Option.some.inj ha2c
            subst h2
            exact ⟨ha, Or.inr ⟨(cls, d1), by simp [hins]⟩⟩

/-- One invariant-respecting call preserves the invariant. -/
theorem step_preserves (s : ConnectionManager) (op : Op) (hok : StateOK s)
    (hop : OpOK op) : StateOK (s.step op) :=
  match op with
  | .connect n ra => connect_preserves ra s n hok hop.1 hop.2
  | .disconnect => disconnect_preserves s hok

/-- Any sequence of invariant-respecting calls preserves the invariant. -/
theorem run_preserves (ops : List Op) (s : ConnectionManager) (hok : StateOK s)
    (hops : ∀ op ∈ ops, OpOK op) : StateOK (s.run ops) := by
  induction ops generalizing s with
  | nil => exact hok
  | cons op rest ih =>
    have h1 : StateOK (s.step op) := step_preserves s op hok (hops op (by simp))
    exact ih (s.step op) h1 (fun o ho => hops o (by simp [ho]))

/-- The invariant bounds the active-connection table by one entry. -/
theorem stateOK_length_le_one (s : ConnectionManager) (hok : StateOK s) :
    s.vpn_manager.active_connections.length ≤ 1 := by
  obtain ⟨hidle, hconn⟩ := hok
  cases hc : s.current_active_profile with
  | none => simp [hidle hc]
  | some a =>
    obtain ⟨_, hac⟩ := hconn a hc
    rcases hac with hac | ⟨cd, hac⟩ <;> simp [hac]

/-- Claim C3, amended: in every state of the orchestrator/manager pair
reachable from a fresh pair by `connect_to_profile` and
`disconnect_current_profile` calls in which every connect targets a
nonempty profile name and every remote-access collaborator returns
rather than raises, the active-connection table holds at most one
entry.  (The counterexample shows both side conditions are needed: a
collaborator that raises after a successful driver connect strands an
entry, and an empty target name defeats the truthiness guard.) -/
theorem active_connections_at_most_one (registry : List (String × DriverClass))
    (store : List (String × ProfileRecord)) (ops : List Op)
    (hops : ∀ op ∈ ops, OpOK op) :
    ((ConnectionManager.init registry store).run ops).vpn_manager.active_connections.length
      ≤ 1 := by
  have hinit : StateOK (ConnectionManager.init registry store) := by
    constructor
    · intro _
      rfl
    · intro a ha
      simp [ConnectionManager.init] at ha
  exact stateOK_length_le_one _ (run_preserves ops _ hinit hops)

/-- Claim C3, witness: a connect of `P2` followed by a disconnect, with a
well-behaved collaborator, keeps the table at no more than one entry. -/
theorem active_connections_at_most_one_witness :
    ((twoProfilesInit.run [Op.connect "P2" raSilent, Op.disconnect])).vpn_manager.active_connections.length
      ≤ 1 :=
  active_connections_at_most_one [("dummy", FortiClientDriver)]
    [("P1", ⟨"P1", "dummy", cfgWithRa⟩), ("P2", ⟨"P2", "dummy", cfgEmptySeq⟩)]
    [Op.connect "P2" raSilent, Op.disconnect]
    (by
      intro op hop
      simp only [List.mem_cons, List.not_mem_nil, or_false] at hop
      rcases hop with rfl | rfl
      · exact ⟨by decide, fun t d => ⟨(true, ""), rfl⟩⟩
      · trivial)
